import Mathlib

/-
Verification development for the token-count.nvim provider scripts.

The repository ships small Python CLI programs that count tokens for a
given model.  The central one is tokencost_counter.py: a router that
tries the official Anthropic API (when enabled and the model id begins
with "claude"), then the official Gemini API (when enabled and the model
id begins with "gemini"), and finally the generic tokencost estimation
library, downgrading to a character-based estimate for Claude-family
models when both tokencost call shapes fail.  tiktoken_counter.py is the
local-tokenizer entry point keyed by an explicit encoding name.

The embedding below models each script as a pure function from an
environment (process environment variables plus the behaviour of the
external libraries, which are black boxes to this repository) and the
argument vector to the observable outcome: stdout lines, stderr lines,
exit code, and which adapters / network calls were attempted.
-/

/-! Section: Python string primitives, embedded structurally so that proofs
and concrete evaluations reduce. -/

/-- Python str.lower, character by character. -/
def pyLower (s : String) : String := ⟨s.data.map Char.toLower⟩

/-- Python len(s): the number of characters of the string. -/
def pyLen (s : String) : Nat := s.data.length

/-- Python s.startswith(pat). -/
def strStarts (s pat : String) : Bool := pat.data.isPrefixOf s.data

/-- Occurrence of a character list inside another (helper for containsStr). -/
def subOccurs (pat : List Char) : List Char → Bool
  | [] => pat.isEmpty
  | c :: rest => pat.isPrefixOf (c :: rest) || subOccurs pat rest

/-- Python "pat in s" for strings. -/
def containsStr (s pat : String) : Bool := subOccurs pat.data s.data

/-! Section: Data model: environments and observable outcomes. -/

/-- A Python exception as seen by the tiktoken script, which distinguishes
ValueError from every other exception class. -/
inductive PyErr where
  | valueError (msg : String)
  | otherError (msg : String)
deriving DecidableEq

/-- The environment of one tokencost_counter.py invocation: the two
credential variables, whether the optional imports succeed, and the
behaviour of the external services and of the tokencost library.  Each
library call is modelled as its result (a count or a raised exception
message) together with the text the call writes to the captured stderr
stream. -/
structure Env where
  anthropic_api_key : Option String
  google_api_key : Option String
  anthropic_import_ok : Bool
  genai_import_ok : Bool
  anthropic_count_tokens : String → String → Except String Nat
  gemini_count_tokens : String → String → Except String Nat
  count_string_tokens : String → String → Except String Nat × String
  has_count_message_tokens : Bool
  count_message_tokens : String → String → Except String Nat × String

/-- Observable outcome of one tokencost_counter.py run: output channels,
exit code, and a trace of which adapters were entered and which actually
reached their remote service. -/
structure RunResult where
  stdout : List String
  stderr : List String
  exitCode : Nat
  anthropicTried : Bool
  anthropicNet : Bool
  geminiTried : Bool
  geminiNet : Bool
  tokencostTried : Bool
deriving DecidableEq

/-- Observable outcome of one tiktoken_counter.py run. -/
structure SimpleResult where
  stdout : List String
  stderr : List String
  exitCode : Nat
deriving DecidableEq

/-! Section: tokencost_counter.py, embedded. -/

/-- Embeds count_with_official_anthropic (tokencost_counter.py lines
14-31).  The import may fail and the key may be absent or empty (Python
falsiness); both return None before any client call.  Any exception from
the client call is caught and becomes None.  The Bool records whether
the remote API call stage was reached. -/
def count_with_official_anthropic (env : Env) (text model : String) :
    Option Nat × Bool :=
  if env.anthropic_import_ok = false then (none, false)
  else
    match env.anthropic_api_key with
    | none => (none, false)
    | some k =>
      if k = "" then (none, false)
      else
        match env.anthropic_count_tokens text model with
        | Except.ok n => (some n, true)
        | Except.error _ => (none, true)

/-- Embeds count_with_official_gemini (tokencost_counter.py lines 34-50),
same shape as the Anthropic helper but keyed by GOOGLE_API_KEY. -/
def count_with_official_gemini (env : Env) (text model : String) :
    Option Nat × Bool :=
  if env.genai_import_ok = false then (none, false)
  else
    match env.google_api_key with
    | none => (none, false)
    | some k =>
      if k = "" then (none, false)
      else
        match env.gemini_count_tokens text model with
        | Except.ok n => (some n, true)
        | Except.error _ => (none, true)

/-- The rough character-based estimate, len(text) // 4, used at
tokencost_counter.py lines 82 and 130. -/
def rough_estimate (text : String) : Nat := pyLen text / 4

/-- The fixed textual marker pattern of tokencost_counter.py line 92: the
captured stderr text is warning-only when it contains both "Warning:" and
"does not support this method". -/
def is_warning_only (captured : String) : Bool :=
  containsStr captured "Warning:" && containsStr captured "does not support this method"

/-- The finally block of count_with_tokencost (lines 86-93): the captured
stderr text is forwarded to the real stderr only when it is non-empty and
not warning-only. -/
def forward_captured (captured : String) : List String :=
  if captured != "" && !(is_warning_only captured) then [captured] else []

/-- Embeds count_with_tokencost (tokencost_counter.py lines 53-93),
before its finally block: the result is the returned count or the raised
exception message, paired with the total text the library wrote to the
captured stderr stream along the executed path. -/
def count_with_tokencost (env : Env) (text model : String) :
    Except String Nat × String :=
  match env.count_string_tokens text model with
  | (Except.ok n, w1) => (Except.ok n, w1)
  | (Except.error e, w1) =>
    if strStarts model "claude" && env.has_count_message_tokens then
      match env.count_message_tokens text model with
      | (Except.ok n, w2) => (Except.ok n, w1 ++ w2)
      | (Except.error _, w2) => (Except.ok (rough_estimate text), w1 ++ w2)
    else
      (Except.error e, w1)

/-- Embeds the enablement-flag parsing of tokencost_counter.py lines
102-103: sys.argv[k].lower() == "true". -/
def parse_enable (s : String) : Bool := pyLower s == "true"

/-- The Anthropic step of main (lines 109-111): result, network flag, and
whether the adapter was entered at all. -/
def anthropic_step (env : Env) (text model : String) (ea : Bool) :
    Option Nat × Bool × Bool :=
  if ea && strStarts model "claude" then
    ((count_with_official_anthropic env text model).1,
     (count_with_official_anthropic env text model).2, true)
  else (none, false, false)

/-- The Gemini step of main (lines 113-115), entered only when the
previous step produced no count. -/
def gemini_step (env : Env) (text model : String) (eg : Bool)
    (prev : Option Nat) : Option Nat × Bool × Bool :=
  if prev.isNone && eg && strStarts model "gemini" then
    ((count_with_official_gemini env text model).1,
     (count_with_official_gemini env text model).2, true)
  else (none, false, false)

/-- The tail of main (tokencost_counter.py lines 117-133) given the two
native-step outcomes a and g: fall back to the tokencost library when
neither produced a count, print the count, and on an exception either
report it on stderr with exit 1 or, for a message beginning with
"Warning:", print the rough estimate and exit 0. -/
def emit_result (env : Env) (text model : String)
    (a g : Option Nat × Bool × Bool) : RunResult :=
  match (match a.1 with | some n => some n | none => g.1) with
  | some n =>
    { stdout := [toString n], stderr := [], exitCode := 0,
      anthropicTried := a.2.2, anthropicNet := a.2.1,
      geminiTried := g.2.2, geminiNet := g.2.1, tokencostTried := false }
  | none =>
    match count_with_tokencost env text model with
    | (Except.ok n, captured) =>
      { stdout := [toString n], stderr := forward_captured captured, exitCode := 0,
        anthropicTried := a.2.2, anthropicNet := a.2.1,
        geminiTried := g.2.2, geminiNet := g.2.1, tokencostTried := true }
    | (Except.error e, captured) =>
      if strStarts e "Warning:" then
        { stdout := [toString (rough_estimate text)],
          stderr := forward_captured captured, exitCode := 0,
          anthropicTried := a.2.2, anthropicNet := a.2.1,
          geminiTried := g.2.2, geminiNet := g.2.1, tokencostTried := true }
      else
        { stdout := [],
          stderr := forward_captured captured ++ ["Error during tokenization: " ++ e],
          exitCode := 1,
          anthropicTried := a.2.2, anthropicNet := a.2.1,
          geminiTried := g.2.2, geminiNet := g.2.1, tokencostTried := true }

/-- Embeds the body of main (tokencost_counter.py lines 106-133) after
argument parsing: the Anthropic step, then the Gemini step on its
result, then the emission tail. -/
def run_main (env : Env) (model : String) (enable_anthropic enable_gemini : Bool)
    (text : String) : RunResult :=
  emit_result env text model (anthropic_step env text model enable_anthropic)
    (gemini_step env text model enable_gemini
      (anthropic_step env text model enable_anthropic).1)

/-- Embeds main of tokencost_counter.py including the argument-count
check (lines 96-104); argv is the argument vector after the script name,
so the Python check len(sys.argv) != 5 is a four-argument match here. -/
def tokencost_main (env : Env) (argv : List String) : RunResult :=
  match argv with
  | [model, ea, eg, text] =>
    run_main env model (parse_enable ea) (parse_enable eg) text
  | _ =>
    { stdout := [],
      stderr := ["Usage: tokencost_counter.py <model> <enable_anthropic> <enable_gemini> <text>"],
      exitCode := 1,
      anthropicTried := false, anthropicNet := false,
      geminiTried := false, geminiNet := false, tokencostTried := false }

/-! Section: tiktoken_counter.py, embedded. -/

/-- The environment of one tiktoken_counter.py invocation: the behaviour
of tiktoken.get_encoding (which raises ValueError on an unknown name) and
of encoding.encode. -/
structure TiktokenEnv where
  get_encoding : String → Except PyErr Unit
  encode : String → String → Except PyErr (List Nat)

/-- Embeds main of tiktoken_counter.py (lines 12-36): argument-count
check with a usage message enumerating the encodings, then get_encoding
and encode under a handler that reports ValueError as an invalid-encoding
error and any other exception as a tokenization error, both with exit 1. -/
def tiktoken_main (env : TiktokenEnv) (argv : List String) : SimpleResult :=
  match argv with
  | [encoding_name, text] =>
    match env.get_encoding encoding_name with
    | Except.error (PyErr.valueError m) =>
      { stdout := [],
        stderr := ["Error: Invalid encoding \x27" ++ encoding_name ++ "\x27. " ++ m],
        exitCode := 1 }
    | Except.error (PyErr.otherError m) =>
      { stdout := [], stderr := ["Error during tokenization: " ++ m], exitCode := 1 }
    | Except.ok _ =>
      match env.encode encoding_name text with
      | Except.ok toks =>
        { stdout := [toString toks.length], stderr := [], exitCode := 0 }
      | Except.error (PyErr.valueError m) =>
        { stdout := [],
          stderr := ["Error: Invalid encoding \x27" ++ encoding_name ++ "\x27. " ++ m],
          exitCode := 1 }
      | Except.error (PyErr.otherError m) =>
        { stdout := [], stderr := ["Error during tokenization: " ++ m], exitCode := 1 }
  | _ =>
    { stdout := [],
      stderr := ["Usage: tiktoken_counter.py <encoding_name> <text>",
        "Available encodings: o200k_base, cl100k_base, p50k_base, p50k_edit, r50k_base, gpt2"],
      exitCode := 1 }

/-- Modelled from the spec: the estimation fallback as the spec words it,
"length(text) divided by 4, integer division", for comparison with the
rough_estimate the source computes. -/
def estimate_spec (text : String) : Nat := pyLen text / 4

/-! Section: Concrete environments used by witnesses and counterexamples. -/

/-- A base environment: no credentials, imports fine, tokencost counts
one token per character with no stderr noise. -/
def env0 : Env :=
  { anthropic_api_key := none, google_api_key := none,
    anthropic_import_ok := true, genai_import_ok := true,
    anthropic_count_tokens := fun _ _ => Except.error "no network",
    gemini_count_tokens := fun _ _ => Except.error "no network",
    count_string_tokens := fun t _ => (Except.ok (pyLen t), ""),
    has_count_message_tokens := true,
    count_message_tokens := fun t _ => (Except.ok (pyLen t), "") }

/-! Section: Shared lemmas about the embedded router. -/

/-- Two non-empty lists that are both prefixes of the same list share
their head. -/
theorem isPrefixOf_cons_head {a c : Char} {as cs l : List Char}
    (h : (a :: as).isPrefixOf l = true) (h2 : (c :: cs).isPrefixOf l = true) :
    a = c := by
  cases l with
  | nil => simp [List.isPrefixOf] at h
  | cons x xs =>
    simp only [List.isPrefixOf, Bool.and_eq_true, beq_iff_eq] at h h2
    exact h.1.trans h2.1.symm

/-- A model id beginning with "claude" cannot also begin with "gemini". -/
theorem claude_not_gemini (m : String) (h : strStarts m "claude" = true) :
    strStarts m "gemini" = false := by
  unfold strStarts at h ⊢
  rw [Bool.eq_false_iff]
  intro hg
  have hc : ('c' :: "laude".data).isPrefixOf m.data = true := h
  have hgm : ('g' :: "emini".data).isPrefixOf m.data = true := hg
  have hcg : ('c' : Char) = 'g' := isPrefixOf_cons_head hc hgm
  exact absurd hcg (by decide)

/-- With the ANTHROPIC_API_KEY unset or empty, the Anthropic helper
returns None without reaching the remote call stage. -/
theorem anthropic_no_key (env : Env) (text model : String)
    (hk : env.anthropic_api_key = none ∨ env.anthropic_api_key = some "") :
    count_with_official_anthropic env text model = (none, false) := by
  unfold count_with_official_anthropic
  rcases hk with h | h <;> rw [h] <;>
    by_cases hi : env.anthropic_import_ok = false <;> simp [hi]

/-- With the key unset or empty, the Anthropic step yields no count and
records no network call, whatever the enablement flag. -/
theorem anthropic_step_no_key (env : Env) (text model : String) (ea : Bool)
    (hk : env.anthropic_api_key = none ∨ env.anthropic_api_key = some "") :
    (anthropic_step env text model ea).1 = none
    ∧ (anthropic_step env text model ea).2.1 = false := by
  have h := anthropic_no_key env text model hk
  unfold anthropic_step
  split <;> simp [h]

/-- A disabled Anthropic flag skips the Anthropic step entirely. -/
theorem anthropic_step_off (env : Env) (text model : String) :
    anthropic_step env text model false = (none, false, false) := by
  unfold anthropic_step; simp

/-- The Anthropic step is entered exactly when the flag is set and the
model id begins with "claude". -/
theorem anthropic_step_tried (env : Env) (text model : String) (ea : Bool) :
    (anthropic_step env text model ea).2.2 = (ea && strStarts model "claude") := by
  unfold anthropic_step
  split <;> simp_all

/-- The Gemini step is entered exactly when the previous step produced
nothing, the flag is set, and the model id begins with "gemini". -/
theorem gemini_step_tried (env : Env) (text model : String) (eg : Bool)
    (prev : Option Nat) :
    (gemini_step env text model eg prev).2.2
      = (prev.isNone && eg && strStarts model "gemini") := by
  unfold gemini_step
  split <;> simp_all

/-- A model id not beginning with "gemini" skips the Gemini step. -/
theorem gemini_step_not_gemini (env : Env) (text model : String) (eg : Bool)
    (prev : Option Nat) (h : strStarts model "gemini" = false) :
    gemini_step env text model eg prev = (none, false, false) := by
  unfold gemini_step
  rw [h]
  simp

/-- A previous success skips the Gemini step. -/
theorem gemini_step_prev_some (env : Env) (text model : String) (eg : Bool)
    (n : Nat) :
    gemini_step env text model eg (some n) = (none, false, false) := by
  unfold gemini_step; simp

/-- Warning-only captured output is never forwarded to stderr. -/
theorem forward_captured_warning (w : String) (h : is_warning_only w = true) :
    forward_captured w = [] := by
  unfold forward_captured
  rw [h]
  simp

/-- For a Claude-family model, when the message-shaped method exists the
tokencost wrapper never raises: it returns some count. -/
theorem count_with_tokencost_claude_ok (env : Env) (text model : String)
    (hm : strStarts model "claude" = true)
    (hattr : env.has_count_message_tokens = true) :
    ∃ n w, count_with_tokencost env text model = (Except.ok n, w) := by
  unfold count_with_tokencost
  rcases h1 : env.count_string_tokens text model with ⟨r1, w1⟩
  cases r1 with
  | ok n => exact ⟨n, w1, rfl⟩
  | error e =>
    rw [hm, hattr]
    simp only [Bool.and_self, if_true]
    rcases h2 : env.count_message_tokens text model with ⟨r2, w2⟩
    cases r2 with
    | ok n => exact ⟨n, w1 ++ w2, rfl⟩
    | error e2 => exact ⟨rough_estimate text, w1 ++ w2, rfl⟩

/-! Section: Claim theorems. -/

/-- Claim C3: the character-based estimation fallback equals
floor(length(text)/4); as a total Lean function it is deterministic,
performs no I/O and always succeeds, and the bounds below pin the
integer division down as the floor. -/
theorem estimate_matches_spec (text : String) :
    rough_estimate text = estimate_spec text
    ∧ 4 * rough_estimate text ≤ pyLen text
    ∧ pyLen text < 4 * (rough_estimate text + 1) := by
  unfold rough_estimate estimate_spec
  refine ⟨rfl, ?_, ?_⟩ <;> omega

/-- Claim C1: for a "claude"-prefixed model with the anthropic flag
enabled and no ANTHROPIC_API_KEY (unset or empty) in the environment,
the router reaches no remote Anthropic call, and the final output is the
generic estimator count with exit 0, not a credential error. -/
theorem missing_credential_short_circuits (env : Env) (model text : String)
    (eg : Bool) (n : Nat)
    (hm : strStarts model "claude" = true)
    (hk : env.anthropic_api_key = none ∨ env.anthropic_api_key = some "")
    (ht : (count_with_tokencost env text model).1 = Except.ok n) :
    (run_main env model true eg text).anthropicNet = false
    ∧ (run_main env model true eg text).stdout = [toString n]
    ∧ (run_main env model true eg text).exitCode = 0 := by
  obtain ⟨ha1, ha2⟩ := anthropic_step_no_key env text model true hk
  have hgm := gemini_step_not_gemini env text model eg
      (anthropic_step env text model true).1 (claude_not_gemini model hm)
  unfold run_main
  rcases hA : anthropic_step env text model true with ⟨a1, a2, a3⟩
  rw [hA] at ha1 ha2 hgm
  have ea1 : a1 = none := ha1
  have ea2 : a2 = false := ha2
  subst ea1
  subst ea2
  rw [hgm]
  unfold emit_result
  rcases hct : count_with_tokencost env text model with ⟨r, w⟩
  rw [hct] at ht
  have hr : r = Except.ok n := ht
  subst hr
  exact ⟨rfl, rfl, rfl⟩

/-- Witness for C1 at a concrete environment and inputs. -/
theorem missing_credential_short_circuits_witness :
    (run_main env0 "claude-3-haiku-20240307" true false "hello world!").anthropicNet = false
    ∧ (run_main env0 "claude-3-haiku-20240307" true false "hello world!").stdout
        = [toString (12 : Nat)]
    ∧ (run_main env0 "claude-3-haiku-20240307" true false "hello world!").exitCode = 0 :=
  missing_credential_short_circuits env0 "claude-3-haiku-20240307" "hello world!"
    false 12 (by decide) (Or.inl rfl) rfl

/-- Claim C2: for a "claude"-prefixed model, when the text-level
tokencost call raises and the message-shaped retry raises too, the
router downgrades to the character estimate len(text) // 4, printing
only that integer with exit 0 (here under no credential and, as the
downgrade path of the spec requires, with no non-warning captured noise). -/
theorem claude_double_failure_estimates (env : Env) (model text : String)
    (ea eg : Bool) (e1 e2 w1 w2 : String)
    (hm : strStarts model "claude" = true)
    (hk : env.anthropic_api_key = none ∨ env.anthropic_api_key = some "")
    (h1 : env.count_string_tokens text model = (Except.error e1, w1))
    (hattr : env.has_count_message_tokens = true)
    (h2 : env.count_message_tokens text model = (Except.error e2, w2))
    (hfwd : forward_captured (w1 ++ w2) = []) :
    (run_main env model ea eg text).stdout = [toString (pyLen text / 4)]
    ∧ (run_main env model ea eg text).stderr = []
    ∧ (run_main env model ea eg text).exitCode = 0 := by
  have hct : count_with_tokencost env text model
      = (Except.ok (rough_estimate text), w1 ++ w2) := by
    unfold count_with_tokencost
    rw [h1, hm, hattr]
    simp [h2]
  obtain ⟨ha1, ha2⟩ := anthropic_step_no_key env text model ea hk
  have hgm := gemini_step_not_gemini env text model eg
      (anthropic_step env text model ea).1 (claude_not_gemini model hm)
  unfold run_main
  rcases hA : anthropic_step env text model ea with ⟨a1, a2, a3⟩
  rw [hA] at ha1 hgm
  have ea1 : a1 = none := ha1
  subst ea1
  rw [hgm]
  unfold emit_result
  simp only [hct]
  simp [hfwd, rough_estimate]

/-- An environment whose tokencost library raises on both call shapes,
writing nothing to the captured stream. -/
def env_fail : Env :=
  { env0 with
    count_string_tokens := fun _ _ => (Except.error "boom one", ""),
    count_message_tokens := fun _ _ => (Except.error "boom two", "") }

/-- Witness for C2 at a concrete double-failure environment. -/
theorem claude_double_failure_estimates_witness :
    (run_main env_fail "claude-3-haiku-20240307" false false "abcdefgh").stdout
        = [toString (pyLen "abcdefgh" / 4)]
    ∧ (run_main env_fail "claude-3-haiku-20240307" false false "abcdefgh").stderr = []
    ∧ (run_main env_fail "claude-3-haiku-20240307" false false "abcdefgh").exitCode = 0 :=
  claude_double_failure_estimates env_fail "claude-3-haiku-20240307" "abcdefgh"
    false false "boom one" "boom two" "" "" (by decide) (Or.inl rfl) rfl rfl rfl
    (by decide)

/-- Claim C4: for a model with no "claude" prefix (and no "gemini"
prefix, so the generic adapter is the one consulted), a non-warning
exception from the text-level tokencost call is terminal: one diagnostic
line on stderr, nothing on stdout, non-zero exit (stated with a silent
captured stream, so that the diagnostic is the only stderr line). -/
theorem non_claude_error_terminal (env : Env) (model text e w : String)
    (ea eg : Bool)
    (hm : strStarts model "claude" = false)
    (hgm : strStarts model "gemini" = false)
    (h1 : env.count_string_tokens text model = (Except.error e, w))
    (hfwd : forward_captured w = [])
    (he : strStarts e "Warning:" = false) :
    (run_main env model ea eg text).stdout = []
    ∧ (run_main env model ea eg text).stderr = ["Error during tokenization: " ++ e]
    ∧ (run_main env model ea eg text).exitCode ≠ 0 := by
  have hct : count_with_tokencost env text model = (Except.error e, w) := by
    unfold count_with_tokencost
    rw [h1, hm]
    simp
  have hA : anthropic_step env text model ea = (none, false, false) := by
    unfold anthropic_step
    rw [hm]
    simp
  have hG := gemini_step_not_gemini env text model eg
      (anthropic_step env text model ea).1 hgm
  rw [hA] at hG
  unfold run_main
  rw [hA, hG]
  unfold emit_result
  simp [hct, he, hfwd]

/-- Witness for C4 at a concrete non-claude failing environment. -/
theorem non_claude_error_terminal_witness :
    (run_main env_fail "gpt-4" false false "hello").stdout = []
    ∧ (run_main env_fail "gpt-4" false false "hello").stderr
        = ["Error during tokenization: " ++ "boom one"]
    ∧ (run_main env_fail "gpt-4" false false "hello").exitCode ≠ 0 :=
  non_claude_error_terminal env_fail "gpt-4" "hello" "boom one" "" false false
    (by decide) (by decide) rfl rfl (by decide)

/-- The enabled Anthropic step for a claude model is the helper outcome. -/
theorem anthropic_step_on (env : Env) (text model : String)
    (hm : strStarts model "claude" = true) :
    anthropic_step env text model true
      = ((count_with_official_anthropic env text model).1,
         (count_with_official_anthropic env text model).2, true) := by
  unfold anthropic_step
  rw [hm]
  simp

/-- The enabled Gemini step for a gemini model after no prior count is
the helper outcome. -/
theorem gemini_step_on (env : Env) (text model : String)
    (hm : strStarts model "gemini" = true) :
    gemini_step env text model true none
      = ((count_with_official_gemini env text model).1,
         (count_with_official_gemini env text model).2, true) := by
  unfold gemini_step
  rw [hm]
  simp

/-- The router records the Anthropic step as tried exactly as the step
computes it, on every control path. -/
theorem run_main_anthropicTried (env : Env) (model text : String) (ea eg : Bool) :
    (run_main env model ea eg text).anthropicTried
      = (anthropic_step env text model ea).2.2 := by
  unfold run_main
  rcases hA : anthropic_step env text model ea with ⟨a1, a2, a3⟩
  have hfst : (((a1, a2, a3) : Option Nat × Bool × Bool)).1 = a1 := rfl
  rw [hfst]
  rcases hG : gemini_step env text model eg a1 with ⟨g1, g2, g3⟩
  unfold emit_result
  cases a1 with
  | some n => rfl
  | none =>
    cases g1 with
    | some n => rfl
    | none =>
      rcases hct : count_with_tokencost env text model with ⟨r, w⟩
      cases r with
      | ok n => rfl
      | error e => by_cases hw : strStarts e "Warning:" = true <;> simp [hw]

/-- The router records the Gemini step as tried exactly as the step
computes it, on every control path. -/
theorem run_main_geminiTried (env : Env) (model text : String) (ea eg : Bool) :
    (run_main env model ea eg text).geminiTried
      = (gemini_step env text model eg (anthropic_step env text model ea).1).2.2 := by
  unfold run_main
  rcases hA : anthropic_step env text model ea with ⟨a1, a2, a3⟩
  have hfst : (((a1, a2, a3) : Option Nat × Bool × Bool)).1 = a1 := rfl
  rw [hfst]
  rcases hG : gemini_step env text model eg a1 with ⟨g1, g2, g3⟩
  unfold emit_result
  cases a1 with
  | some n => rfl
  | none =>
    cases g1 with
    | some n => rfl
    | none =>
      rcases hct : count_with_tokencost env text model with ⟨r, w⟩
      cases r with
      | ok n => rfl
      | error e => by_cases hw : strStarts e "Warning:" = true <;> simp [hw]

/-- A count from the Anthropic step is printed directly: nothing later
in the chain runs. -/
theorem run_main_anthropic_success (env : Env) (model text : String)
    (ea eg : Bool) (n : Nat)
    (h : (anthropic_step env text model ea).1 = some n) :
    run_main env model ea eg text
      = { stdout := [toString n], stderr := [], exitCode := 0,
          anthropicTried := (anthropic_step env text model ea).2.2,
          anthropicNet := (anthropic_step env text model ea).2.1,
          geminiTried := false, geminiNet := false, tokencostTried := false } := by
  unfold run_main
  rcases hA : anthropic_step env text model ea with ⟨a1, a2, a3⟩
  rw [hA] at h
  have h1 : a1 = some n := h
  subst h1
  have hfst : (((some n, a2, a3) : Option Nat × Bool × Bool)).1 = some n := rfl
  rw [hfst, gemini_step_prev_some]
  rfl

/-- A count from the Gemini step is printed directly: the tokencost
fallback does not run. -/
theorem run_main_gemini_success (env : Env) (model text : String)
    (ea eg : Bool) (n : Nat)
    (ha : (anthropic_step env text model ea).1 = none)
    (hg : (gemini_step env text model eg (anthropic_step env text model ea).1).1
        = some n) :
    (run_main env model ea eg text).tokencostTried = false
    ∧ (run_main env model ea eg text).stdout = [toString n] := by
  unfold run_main
  rcases hA : anthropic_step env text model ea with ⟨a1, a2, a3⟩
  rw [hA] at ha hg
  have h1 : a1 = none := ha
  subst h1
  rcases hG : gemini_step env text model eg
      (((none, a2, a3) : Option Nat × Bool × Bool)).1 with ⟨g1, g2, g3⟩
  rw [hG] at hg
  have h2 : g1 = some n := hg
  subst h2
  exact ⟨rfl, rfl⟩

/-- Claim C5: adapters run in strict priority order with family-prefix
gating.  The Anthropic step is entered exactly when its flag is set and
the model id begins with "claude"; the Gemini step only when the model
id begins with "gemini" and its flag is set; a native success is printed
directly and stops the chain, so no later adapter runs. -/
theorem adapter_priority (env : Env) (model text : String) (ea eg : Bool) :
    (run_main env model ea eg text).anthropicTried = (ea && strStarts model "claude")
    ∧ ((run_main env model ea eg text).geminiTried = true →
        eg = true ∧ strStarts model "gemini" = true)
    ∧ (∀ n : Nat, ea = true → strStarts model "claude" = true →
        (count_with_official_anthropic env text model).1 = some n →
        (run_main env model ea eg text).geminiTried = false
        ∧ (run_main env model ea eg text).tokencostTried = false
        ∧ (run_main env model ea eg text).stdout = [toString n]
        ∧ (run_main env model ea eg text).exitCode = 0)
    ∧ (∀ n : Nat, (anthropic_step env text model ea).1 = none → eg = true →
        strStarts model "gemini" = true →
        (count_with_official_gemini env text model).1 = some n →
        (run_main env model ea eg text).tokencostTried = false
        ∧ (run_main env model ea eg text).stdout = [toString n]) := by
  refine ⟨?_, ?_, ?_, ?_⟩
  · rw [run_main_anthropicTried, anthropic_step_tried]
  · intro h
    rw [run_main_geminiTried, gemini_step_tried] at h
    simp only [Bool.and_eq_true] at h
    exact ⟨h.1.2, h.2⟩
  · intro n hea hm hc
    subst hea
    have h1 : (anthropic_step env text model true).1 = some n := by
      rw [anthropic_step_on env text model hm]
      exact hc
    have hrun := run_main_anthropic_success env model text true eg n h1
    rw [hrun]
    exact ⟨rfl, rfl, rfl, rfl⟩
  · intro n ha heg hm hc
    subst heg
    have h2 : (gemini_step env text model true
        (anthropic_step env text model ea).1).1 = some n := by
      rw [ha, gemini_step_on env text model hm]
      exact hc
    exact run_main_gemini_success env model text ea true n ha h2

/-- An environment where the Anthropic service is reachable and answers
42 tokens. -/
def envA : Env :=
  { env0 with
    anthropic_api_key := some "key",
    anthropic_count_tokens := fun _ _ => Except.ok 42 }

/-- Witness for C5 at a concrete environment with a native success. -/
theorem adapter_priority_witness :
    (run_main envA "claude-3-haiku-20240307" true true "hi").anthropicTried
        = (true && strStarts "claude-3-haiku-20240307" "claude")
    ∧ (run_main envA "claude-3-haiku-20240307" true true "hi").geminiTried = false
    ∧ (run_main envA "claude-3-haiku-20240307" true true "hi").tokencostTried = false
    ∧ (run_main envA "claude-3-haiku-20240307" true true "hi").stdout
        = [toString (42 : Nat)]
    ∧ (run_main envA "claude-3-haiku-20240307" true true "hi").exitCode = 0 := by
  have h := adapter_priority envA "claude-3-haiku-20240307" "hi" true true
  have h3 := h.2.2.1 42 rfl (by decide) (by decide)
  exact ⟨h.1, h3.1, h3.2.1, h3.2.2.1, h3.2.2.2⟩

/-- Claim C6: for a "claude" model under the generic estimator, captured
library output matching the warning marker never reaches stderr: only
an integer count is printed and the exit status is 0. -/
theorem warning_only_never_on_stderr (env : Env) (model text : String)
    (ea eg : Bool)
    (hm : strStarts model "claude" = true)
    (hattr : env.has_count_message_tokens = true)
    (hk : env.anthropic_api_key = none ∨ env.anthropic_api_key = some "")
    (hw : is_warning_only (count_with_tokencost env text model).2 = true) :
    (run_main env model ea eg text).stderr = []
    ∧ (∃ n : Nat, (run_main env model ea eg text).stdout = [toString n])
    ∧ (run_main env model ea eg text).exitCode = 0 := by
  obtain ⟨n, w, hct⟩ := count_with_tokencost_claude_ok env text model hm hattr
  rw [hct] at hw
  have hw2 : is_warning_only w = true := hw
  obtain ⟨ha1, ha2⟩ := anthropic_step_no_key env text model ea hk
  have hgm := gemini_step_not_gemini env text model eg
      (anthropic_step env text model ea).1 (claude_not_gemini model hm)
  unfold run_main
  rcases hA : anthropic_step env text model ea with ⟨a1, a2, a3⟩
  rw [hA] at ha1 hgm
  have ea1 : a1 = none := ha1
  subst ea1
  rw [hgm]
  unfold emit_result
  simp only [hct]
  refine ⟨?_, ⟨n, ?_⟩, ?_⟩ <;> simp [forward_captured_warning w hw2]

/-- An environment whose tokencost library succeeds but writes a
warning-marked diagnostic to the captured stream. -/
def env_warn : Env :=
  { env0 with count_string_tokens := fun t _ =>
      (Except.ok (pyLen t),
       "Warning: claude-3 does not support this method, estimating") }

/-- Witness for C6 at a concrete warning-emitting environment. -/
theorem warning_only_never_on_stderr_witness :
    (run_main env_warn "claude-3-haiku-20240307" false false "hey").stderr = []
    ∧ (∃ n : Nat,
        (run_main env_warn "claude-3-haiku-20240307" false false "hey").stdout
          = [toString n])
    ∧ (run_main env_warn "claude-3-haiku-20240307" false false "hey").exitCode = 0 :=
  warning_only_never_on_stderr env_warn "claude-3-haiku-20240307" "hey" false false
    (by decide) rfl (Or.inl rfl) (by decide)

/-- Every run of the router body ends in the integer-output shape or the
diagnostic failure shape. -/
theorem run_main_outcome_cases (env : Env) (model text : String) (ea eg : Bool) :
    ((run_main env model ea eg text).exitCode = 0
      ∧ ∃ n : Nat, (run_main env model ea eg text).stdout = [toString n])
    ∨ ((run_main env model ea eg text).exitCode = 1
      ∧ (run_main env model ea eg text).stdout = []
      ∧ (run_main env model ea eg text).stderr ≠ []) := by
  unfold run_main
  rcases hA : anthropic_step env text model ea with ⟨a1, a2, a3⟩
  have hfst : (((a1, a2, a3) : Option Nat × Bool × Bool)).1 = a1 := rfl
  rw [hfst]
  rcases hG : gemini_step env text model eg a1 with ⟨g1, g2, g3⟩
  unfold emit_result
  cases a1 with
  | some n => left; exact ⟨rfl, n, rfl⟩
  | none =>
    cases g1 with
    | some n => left; exact ⟨rfl, n, rfl⟩
    | none =>
      rcases hct : count_with_tokencost env text model with ⟨r, w⟩
      cases r with
      | ok n => left; exact ⟨rfl, n, rfl⟩
      | error e =>
        by_cases hw : strStarts e "Warning:" = true
        · left
          refine ⟨?_, rough_estimate text, ?_⟩ <;> simp [hw]
        · right
          refine ⟨?_, ?_, ?_⟩ <;> simp [hw, List.append_eq_nil]

/-- Claim C9: no adapter exception escapes the router: every invocation,
whatever the environment and arguments, ends in either the
integer-output success path (exit 0) or the diagnostic failure path
(exit 1, no stdout, a message on stderr). -/
theorem router_outcome_total (env : Env) (argv : List String) :
    ((tokencost_main env argv).exitCode = 0
      ∧ ∃ n : Nat, (tokencost_main env argv).stdout = [toString n])
    ∨ ((tokencost_main env argv).exitCode = 1
      ∧ (tokencost_main env argv).stdout = []
      ∧ (tokencost_main env argv).stderr ≠ []) := by
  rcases argv with _ | ⟨x1, _ | ⟨x2, _ | ⟨x3, _ | ⟨x4, _ | ⟨x5, rest⟩⟩⟩⟩⟩
  · right; exact ⟨rfl, rfl, by simp [tokencost_main]⟩
  · right; exact ⟨rfl, rfl, by simp [tokencost_main]⟩
  · right; exact ⟨rfl, rfl, by simp [tokencost_main]⟩
  · right; exact ⟨rfl, rfl, by simp [tokencost_main]⟩
  · exact run_main_outcome_cases env x1 x4 (parse_enable x2) (parse_enable x3)
  · right; exact ⟨rfl, rfl, by simp [tokencost_main]⟩

/-- A disabled Gemini flag skips the Gemini step entirely. -/
theorem gemini_step_off (env : Env) (text model : String) (prev : Option Nat) :
    gemini_step env text model false prev = (none, false, false) := by
  unfold gemini_step
  simp

/-- A tiktoken model faithful to the library contract: the six shipped
encodings are known, any other name raises ValueError with the library
message "Unknown encoding <name>" (which does not list the valid
options), and encoding produces one token per character. -/
def tk_env : TiktokenEnv :=
  { get_encoding := fun name =>
      if name == "o200k_base" || name == "cl100k_base" || name == "p50k_base"
          || name == "p50k_edit" || name == "r50k_base" || name == "gpt2"
      then Except.ok ()
      else Except.error (PyErr.valueError ("Unknown encoding " ++ name)),
    encode := fun _ text => Except.ok (List.replicate (pyLen text) 0) }

/-- Claim C7 (amended): an unknown encoding name makes the
local-tokenizer path report a distinct invalid-encoding error naming the
encoding on stderr, print nothing to stdout and exit non-zero; the
enumeration of valid encodings is printed by the usage message on a
wrong argument count, not inside the invalid-encoding error line. -/
theorem tiktoken_main_pair (env : TiktokenEnv) (name text : String) :
    tiktoken_main env [name, text]
      = match env.get_encoding name with
        | Except.error (PyErr.valueError m) =>
          { stdout := [],
            stderr := ["Error: Invalid encoding \x27" ++ name ++ "\x27. " ++ m],
            exitCode := 1 }
        | Except.error (PyErr.otherError m) =>
          { stdout := [], stderr := ["Error during tokenization: " ++ m], exitCode := 1 }
        | Except.ok _ =>
          match env.encode name text with
          | Except.ok toks =>
            { stdout := [toString toks.length], stderr := [], exitCode := 0 }
          | Except.error (PyErr.valueError m) =>
            { stdout := [],
              stderr := ["Error: Invalid encoding \x27" ++ name ++ "\x27. " ++ m],
              exitCode := 1 }
          | Except.error (PyErr.otherError m) =>
            { stdout := [], stderr := ["Error during tokenization: " ++ m], exitCode := 1 } :=
  rfl

theorem invalid_encoding_distinct_error (env : TiktokenEnv)
    (name text m : String)
    (h : env.get_encoding name = Except.error (PyErr.valueError m)) :
    (tiktoken_main env [name, text]).exitCode ≠ 0
    ∧ (tiktoken_main env [name, text]).stdout = []
    ∧ (tiktoken_main env [name, text]).stderr
        = ["Error: Invalid encoding \x27" ++ name ++ "\x27. " ++ m]
    ∧ (tiktoken_main env ["bad-call"]).stderr
        = ["Usage: tiktoken_counter.py <encoding_name> <text>",
           "Available encodings: o200k_base, cl100k_base, p50k_base, p50k_edit, r50k_base, gpt2"] := by
  rw [tiktoken_main_pair, h]
  exact ⟨by simp, rfl, rfl, rfl⟩

/-- Witness for C7 at the concrete tiktoken model. -/
theorem invalid_encoding_distinct_error_witness :
    (tiktoken_main tk_env ["not_a_real_encoding", "hi"]).exitCode ≠ 0
    ∧ (tiktoken_main tk_env ["not_a_real_encoding", "hi"]).stdout = []
    ∧ (tiktoken_main tk_env ["not_a_real_encoding", "hi"]).stderr
        = ["Error: Invalid encoding \x27" ++ "not_a_real_encoding" ++ "\x27. "
            ++ "Unknown encoding not_a_real_encoding"]
    ∧ (tiktoken_main tk_env ["bad-call"]).stderr
        = ["Usage: tiktoken_counter.py <encoding_name> <text>",
           "Available encodings: o200k_base, cl100k_base, p50k_base, p50k_edit, r50k_base, gpt2"] :=
  invalid_encoding_distinct_error tk_env "not_a_real_encoding" "hi"
    "Unknown encoding not_a_real_encoding" rfl

/-- Counterexample to C7 as stated: the invalid-encoding error line
produced for "not_a_real_encoding" does not enumerate the valid
encodings (none of the six names occurs in it), and it is the only
stderr line. -/
theorem invalid_encoding_no_enumeration :
    (tiktoken_main tk_env ["not_a_real_encoding", "hi"]).exitCode ≠ 0
    ∧ (tiktoken_main tk_env ["not_a_real_encoding", "hi"]).stderr.length = 1
    ∧ containsStr ((tiktoken_main tk_env ["not_a_real_encoding", "hi"]).stderr.headD "")
        "o200k_base" = false
    ∧ containsStr ((tiktoken_main tk_env ["not_a_real_encoding", "hi"]).stderr.headD "")
        "cl100k_base" = false
    ∧ containsStr ((tiktoken_main tk_env ["not_a_real_encoding", "hi"]).stderr.headD "")
        "p50k_base" = false
    ∧ containsStr ((tiktoken_main tk_env ["not_a_real_encoding", "hi"]).stderr.headD "")
        "p50k_edit" = false
    ∧ containsStr ((tiktoken_main tk_env ["not_a_real_encoding", "hi"]).stderr.headD "")
        "r50k_base" = false
    ∧ containsStr ((tiktoken_main tk_env ["not_a_real_encoding", "hi"]).stderr.headD "")
        "gpt2" = false := by decide

/-- Claim C8 (amended): empty text is a valid input on every path: the
rough estimate of "" is 0, and when the counting library reports 0
tokens for "" (as real tokenizers do) the router prints 0 with exit 0,
and the local-tokenizer path prints 0 with exit 0. -/
theorem empty_text_accepted (env : Env) (tenv : TiktokenEnv)
    (model ename : String)
    (h0 : env.count_string_tokens "" model = (Except.ok 0, ""))
    (hg : tenv.get_encoding ename = Except.ok ())
    (he : tenv.encode ename "" = Except.ok []) :
    (run_main env model false false "").stdout = ["0"]
    ∧ (run_main env model false false "").stderr = []
    ∧ (run_main env model false false "").exitCode = 0
    ∧ rough_estimate "" = 0
    ∧ (tiktoken_main tenv [ename, ""]).stdout = ["0"]
    ∧ (tiktoken_main tenv [ename, ""]).exitCode = 0 := by
  have hct : count_with_tokencost env "" model = (Except.ok 0, "") := by
    unfold count_with_tokencost
    rw [h0]
  have hz : toString (0 : Nat) = "0" := by decide
  have hrm : run_main env model false false ""
      = { stdout := [toString (0 : Nat)], stderr := forward_captured "",
          exitCode := 0, anthropicTried := false, anthropicNet := false,
          geminiTried := false, geminiNet := false, tokencostTried := true } := by
    unfold run_main
    rw [anthropic_step_off, gemini_step_off]
    unfold emit_result
    rw [hct]
  have htk : tiktoken_main tenv [ename, ""]
      = { stdout := [toString ([] : List Nat).length], stderr := [], exitCode := 0 } := by
    rw [tiktoken_main_pair, hg, he]
  rw [hrm, htk]
  exact ⟨by rw [hz], by decide, rfl, by decide, by decide, rfl⟩

/-- An environment whose counting library reports seven tokens even for
the empty text. -/
def env_seven : Env :=
  { env0 with count_string_tokens := fun _ _ => (Except.ok 7, "") }

/-- Counterexample to C8 as stated: the router forwards whatever count
the adapter returns for "", so with a library that answers 7 it prints
7, not 0. -/
theorem empty_text_library_dependent :
    (run_main env_seven "gpt-4" false false "").exitCode = 0
    ∧ (run_main env_seven "gpt-4" false false "").stdout = ["7"]
    ∧ ¬ (run_main env_seven "gpt-4" false false "").stdout = ["0"] := by decide

/-- Witness for C8 at concrete environments honouring the zero-token
contract for empty text. -/
theorem empty_text_accepted_witness :
    (run_main env0 "gpt-4" false false "").stdout = ["0"]
    ∧ (run_main env0 "gpt-4" false false "").stderr = []
    ∧ (run_main env0 "gpt-4" false false "").exitCode = 0
    ∧ rough_estimate "" = 0
    ∧ (tiktoken_main tk_env ["cl100k_base", ""]).stdout = ["0"]
    ∧ (tiktoken_main tk_env ["cl100k_base", ""]).exitCode = 0 :=
  empty_text_accepted env0 tk_env "gpt-4" "cl100k_base" rfl rfl rfl

/-- Claim C10: the enablement-flag argument enables a native adapter
exactly when it equals "true" case-insensitively; any other string (for
example "1", "yes" or "enabled") behaves identically to "false", with
no error reported. -/
theorem enable_flag_strict (env : Env) (model g text s : String) :
    (parse_enable s = true ↔ pyLower s = "true")
    ∧ (pyLower s ≠ "true" →
        tokencost_main env [model, s, g, text]
          = tokencost_main env [model, "false", g, text]) := by
  constructor
  · simp [parse_enable]
  · intro h
    have hp : parse_enable s = false := by
      unfold parse_enable
      exact beq_eq_false_iff_ne.mpr h
    have hf : parse_enable "false" = false := by decide
    have e1 : tokencost_main env [model, s, g, text]
        = run_main env model (parse_enable s) (parse_enable g) text := rfl
    have e2 : tokencost_main env [model, "false", g, text]
        = run_main env model (parse_enable "false") (parse_enable g) text := rfl
    rw [e1, e2, hp, hf]

/-- Witness for C10 at the flag string "1". -/
theorem enable_flag_strict_witness :
    (parse_enable "1" = true ↔ pyLower "1" = "true")
    ∧ tokencost_main env0 ["gpt-4", "1", "false", "hi"]
        = tokencost_main env0 ["gpt-4", "false", "false", "hi"] := by
  have h := enable_flag_strict env0 "gpt-4" "false" "hi" "1"
  exact ⟨h.1, h.2 (by decide)⟩

/-- Witness for C3 at a concrete text. -/
theorem estimate_matches_spec_witness :
    rough_estimate "abcdefghij" = estimate_spec "abcdefghij"
    ∧ 4 * rough_estimate "abcdefghij" ≤ pyLen "abcdefghij"
    ∧ pyLen "abcdefghij" < 4 * (rough_estimate "abcdefghij" + 1) :=
  estimate_matches_spec "abcdefghij"

/-- Witness for C9 at a concrete invocation. -/
theorem router_outcome_total_witness :
    ((tokencost_main env0 ["gpt-4", "false", "false", "hi"]).exitCode = 0
      ∧ ∃ n : Nat,
        (tokencost_main env0 ["gpt-4", "false", "false", "hi"]).stdout = [toString n])
    ∨ ((tokencost_main env0 ["gpt-4", "false", "false", "hi"]).exitCode = 1
      ∧ (tokencost_main env0 ["gpt-4", "false", "false", "hi"]).stdout = []
      ∧ (tokencost_main env0 ["gpt-4", "false", "false", "hi"]).stderr ≠ []) :=
  router_outcome_total env0 ["gpt-4", "false", "false", "hi"]
